import Mathlib

/-!
Verification of the projection-engine functions of the Event Business Ad
Optimizer against its specification.

The engine (src/app.py) is a set of pure financial formulas over Python
floats; here they are embedded over `ℚ` (the computations involved are
exact decimal arithmetic, never rounded by the engine).  A Python
`ValueError` raised by input validation is embedded as
`Except.error msg`; the `float('inf')` sentinel returned by the break-even
metrics is the constructor `EngineVal.posInf`; a Python `None` returned by
the "current" metrics is `Option.none`.
-/

/-- Result type of the break-even metrics: a finite rational value or the
positive-infinity sentinel (`float('inf')` in the source). -/
inductive EngineVal where
  | finite (q : ℚ)
  | posInf
deriving DecidableEq

/-- Order on engine values with `posInf` as the top element, matching the
IEEE ordering of finite floats against `float('inf')` used for display
comparisons in the source. -/
def EngineVal.leb : EngineVal → EngineVal → Bool
  | .finite a, .finite b => decide (a ≤ b)
  | .finite _, .posInf => true
  | .posInf, .finite _ => false
  | .posInf, .posInf => true

/-- Embeds `calculate_avg_ticket_price` of src/app.py: validates
`0 <= sales_mix_pre <= 100` and non-negative prices, then returns the
weighted average with `sales_mix_post = 100 - sales_mix_pre`. -/
def calculate_avg_ticket_price (ticket_price_pre ticket_price_post
    sales_mix_pre : ℚ) : Except String ℚ :=
  if ¬ (0 ≤ sales_mix_pre ∧ sales_mix_pre ≤ 100) then
    .error "Pre-show sales mix must be between 0 and 100"
  else if ticket_price_pre < 0 ∨ ticket_price_post < 0 then
    .error "Ticket prices cannot be negative"
  else
    .ok ((ticket_price_pre * sales_mix_pre / 100) +
         (ticket_price_post * (100 - sales_mix_pre) / 100))

/-- Embeds `calculate_total_fixed_costs` of src/app.py: rejects negative
inputs, returns `fixed_costs * events_per_month`. -/
def calculate_total_fixed_costs (fixed_costs events_per_month : ℚ) :
    Except String ℚ :=
  if fixed_costs < 0 then
    .error "Fixed costs cannot be negative"
  else if events_per_month < 0 then
    .error "Events per month cannot be negative"
  else
    .ok (fixed_costs * events_per_month)

/-- Embeds `calculate_projected_revenue` of src/app.py: validates the
attendance percentage range and non-negative capacity and event count,
then returns `avg_ticket_price * capacity * (attendance/100) * events`. -/
def calculate_projected_revenue (avg_ticket_price venue_capacity
    attendance_percentage events_per_month : ℚ) : Except String ℚ :=
  if ¬ (0 ≤ attendance_percentage ∧ attendance_percentage ≤ 100) then
    .error "Attendance percentage must be between 0 and 100"
  else if venue_capacity < 0 then
    .error "Venue capacity cannot be negative"
  else if events_per_month < 0 then
    .error "Events per month cannot be negative"
  else
    .ok (avg_ticket_price * venue_capacity *
         (attendance_percentage / 100) * events_per_month)

/-- Embeds `calculate_projected_profit` of src/app.py. -/
def calculate_projected_profit (projected_revenue total_fixed_costs
    event_cost events_per_month ad_spend : ℚ) : Except String ℚ :=
  if event_cost < 0 ∨ events_per_month < 0 ∨ ad_spend < 0 then
    .error "Cost values cannot be negative"
  else
    .ok (projected_revenue - total_fixed_costs -
         (event_cost * events_per_month) - ad_spend)

/-- Embeds `calculate_breakeven_roas` of src/app.py: no validation; returns
`projected_revenue / breakeven_ad_spend` when the denominator is positive
and the infinity sentinel otherwise. -/
def calculate_breakeven_roas (total_fixed_costs event_cost events_per_month
    projected_revenue : ℚ) : EngineVal :=
  let breakeven_ad_spend := total_fixed_costs + event_cost * events_per_month
  if breakeven_ad_spend > 0 then
    .finite (projected_revenue / breakeven_ad_spend)
  else
    .posInf

/-- Embeds `calculate_current_roas` of src/app.py: `None` when `ad_spend`
is zero, else `projected_revenue / ad_spend`. -/
def calculate_current_roas (projected_revenue ad_spend : ℚ) : Option ℚ :=
  if ad_spend = 0 then none else some (projected_revenue / ad_spend)

/-- Embeds `calculate_current_cpp` of src/app.py: `None` when
`tickets_sold` is zero, else `ad_spend / tickets_sold`. -/
def calculate_current_cpp (ad_spend tickets_sold : ℚ) : Option ℚ :=
  if tickets_sold = 0 then none else some (ad_spend / tickets_sold)

/-- Embeds `calculate_breakeven_cpp` of src/app.py: returns
`breakeven_ad_spend / projected_tickets_sold` when the projected ticket
count is positive and the infinity sentinel otherwise. -/
def calculate_breakeven_cpp (total_fixed_costs event_cost events_per_month
    venue_capacity attendance_percentage : ℚ) : EngineVal :=
  let breakeven_ad_spend := total_fixed_costs + event_cost * events_per_month
  let projected_tickets_sold :=
    venue_capacity * (attendance_percentage / 100) * events_per_month
  if projected_tickets_sold > 0 then
    .finite (breakeven_ad_spend / projected_tickets_sold)
  else
    .posInf

/-- Embeds `calculate_threshold_metrics` of src/app.py: recomputes the
projected revenue at the given attendance level with the existing
calculation functions and pairs the break-even ROAS with the break-even
CPP; a validation error in the revenue step propagates. -/
def calculate_threshold_metrics (attendance_level avg_ticket_price
    venue_capacity events_per_month total_fixed_costs event_cost : ℚ) :
    Except String (EngineVal × EngineVal) := do
  let revenue ← calculate_projected_revenue avg_ticket_price venue_capacity
    attendance_level events_per_month
  let roas := calculate_breakeven_roas total_fixed_costs event_cost
    events_per_month revenue
  let cpp := calculate_breakeven_cpp total_fixed_costs event_cost
    events_per_month venue_capacity attendance_level
  pure (roas, cpp)

/-- The fixed reference attendance levels of the thresholds table
(src/app.py, `attendance_levels = [40, 50, 60, 70, 80, 90]`). -/
def attendance_levels : List ℚ := [40, 50, 60, 70, 80, 90]

/-- Embeds the thresholds-table loop of src/app.py: one row per attendance
level, in the order of `attendance_levels`, each row holding the level and
the metrics computed by `calculate_threshold_metrics` at that level. -/
def threshold_data (avg_ticket_price venue_capacity events_per_month
    total_fixed_costs event_cost : ℚ) :
    List (ℚ × Except String (EngineVal × EngineVal)) :=
  attendance_levels.map (fun level =>
    (level, calculate_threshold_metrics level avg_ticket_price venue_capacity
      events_per_month total_fixed_costs event_cost))

/-- A saved scenario: the input values under their field names, plus the
`saved_at` timestamp that `save_scenario` adds (src/app.py). -/
structure SavedScenario where
  values : List (String × ℚ)
  saved_at : String
deriving DecidableEq

/-- Embeds `save_scenario` of src/app.py.  The session scenario mapping is
a Python dict keyed by name, embedded as an association list in insertion
order; the wall-clock timestamp is an explicit argument.  Returns the
success flag together with the mapping after the call. -/
def save_scenario (scenarios : List (String × SavedScenario))
    (name : String) (values : List (String × ℚ)) (now : String) :
    Bool × List (String × SavedScenario) :=
  if scenarios.any (fun p => p.1 = name) then
    (false, scenarios)
  else
    (true, scenarios ++ [(name, ⟨values, now⟩)])

/-! ## Theorems -/

/-- C1: for every totalFixedCosts, eventCost, eventsPerMonth and revenue,
`calculate_breakeven_roas` computes
`breakevenAdSpend = totalFixedCosts + eventCost*eventsPerMonth` and
returns `revenue / breakevenAdSpend` when `breakevenAdSpend > 0` and the
positive-infinity sentinel when `breakevenAdSpend = 0`; the function is
total (the zero denominator is never an error) and performs no rounding. -/
theorem C1_breakeven_roas (tfc ec epm rev : ℚ) :
    (tfc + ec * epm > 0 →
      calculate_breakeven_roas tfc ec epm rev =
        .finite (rev / (tfc + ec * epm))) ∧
    (tfc + ec * epm = 0 →
      calculate_breakeven_roas tfc ec epm rev = .posInf) := by
  unfold calculate_breakeven_roas
  constructor
  · intro h
    simp [h]
  · intro h
    simp [h]

/-- Witness for C1 at the spec's concrete scenario: costs 5000 + 1000·1
are positive, and the result is the exact ratio 2500/6000. -/
theorem C1_breakeven_roas_witness :
    calculate_breakeven_roas 5000 1000 1 2500 =
      .finite (2500 / ((5000 : ℚ) + 1000 * 1)) :=
  (C1_breakeven_roas 5000 1000 1 2500).1 (by norm_num)

/-- C2: the spec's concrete scenario.  With fixed_costs 5000, event_cost
1000, prices 25/50, sales mix 75, capacity 200, one event per month and
attendance 40, the derivation chain yields avgTicketPrice 31.25 (= 125/4),
totalFixedCosts 5000, projectedRevenue 2500, breakevenROAS 2500/6000 and
breakevenCPP 75. -/
theorem C2_concrete_scenario :
    calculate_avg_ticket_price 25 50 75 = .ok (125 / 4) ∧
    calculate_total_fixed_costs 5000 1 = .ok 5000 ∧
    calculate_projected_revenue (125 / 4) 200 40 1 = .ok 2500 ∧
    calculate_breakeven_roas 5000 1000 1 2500 = .finite (2500 / 6000) ∧
    calculate_breakeven_cpp 5000 1000 1 200 40 = .finite 75 := by
  refine ⟨?_, ?_, ?_, ?_, ?_⟩ <;>
    norm_num [calculate_avg_ticket_price, calculate_total_fixed_costs,
      calculate_projected_revenue, calculate_breakeven_roas,
      calculate_breakeven_cpp]

/-- C5: `calculate_current_roas` is absent (`none`, not zero and not an
error) exactly when `ad_spend = 0` and equals `revenue / ad_spend`
otherwise; `calculate_current_cpp` is absent exactly when
`tickets_sold = 0` and equals `ad_spend / tickets_sold` otherwise. -/
theorem C5_current_metrics (rev ad sold : ℚ) :
    (ad = 0 → calculate_current_roas rev ad = none) ∧
    (ad ≠ 0 → calculate_current_roas rev ad = some (rev / ad)) ∧
    (sold = 0 → calculate_current_cpp ad sold = none) ∧
    (sold ≠ 0 → calculate_current_cpp ad sold = some (ad / sold)) := by
  unfold calculate_current_roas calculate_current_cpp
  refine ⟨fun h => ?_, fun h => ?_, fun h => ?_, fun h => ?_⟩ <;> simp [h]

/-- Witness for C5: with revenue 10 and ad spend 2 the current ROAS is the
ratio 10/2, and with zero tickets sold the current CPP is absent. -/
theorem C5_current_metrics_witness :
    calculate_current_roas 10 2 = some (10 / 2) ∧
    calculate_current_cpp 2 0 = none :=
  ⟨(C5_current_metrics 10 2 0).2.1 (by norm_num),
   (C5_current_metrics 10 2 0).2.2.1 rfl⟩

/-- C6: for valid inputs (non-negative prices, sales mix in [0,100])
`calculate_avg_ticket_price` returns
`pricePre*mix/100 + pricePost*(100-mix)/100`; for every input violating
the preconditions it returns an error and no value is produced. -/
theorem C6_avg_ticket_price (pre post mix : ℚ) :
    (0 ≤ pre → 0 ≤ post → 0 ≤ mix → mix ≤ 100 →
      calculate_avg_ticket_price pre post mix =
        .ok (pre * mix / 100 + post * (100 - mix) / 100)) ∧
    (¬ (0 ≤ pre ∧ 0 ≤ post ∧ 0 ≤ mix ∧ mix ≤ 100) →
      ∃ e, calculate_avg_ticket_price pre post mix = .error e) := by
  unfold calculate_avg_ticket_price
  constructor
  · intro h1 h2 h3 h4
    have : ¬ (pre < 0 ∨ post < 0) := by
      push_neg
      exact ⟨h1, h2⟩
    simp [h3, h4, this]
  · intro h
    push_neg at h
    by_cases hmix : 0 ≤ mix ∧ mix ≤ 100
    · have : pre < 0 ∨ post < 0 := by
        by_contra hc
        push_neg at hc
        exact absurd (h hc.1 hc.2 hmix.1) (not_lt.mpr hmix.2)
      refine ⟨"Ticket prices cannot be negative", ?_⟩
      simp [hmix.1, hmix.2, this]
    · refine ⟨"Pre-show sales mix must be between 0 and 100", ?_⟩
      simp only [hmix, not_false_eq_true, if_pos]

/-- Witness for C6: the spec's valid scenario (25, 50, mix 75) produces
the weighted average, and the invalid sales mix 150 produces an error. -/
theorem C6_avg_ticket_price_witness :
    calculate_avg_ticket_price 25 50 75 =
      .ok ((25 : ℚ) * 75 / 100 + 50 * (100 - 75) / 100) ∧
    ∃ e, calculate_avg_ticket_price 25 50 150 = .error e :=
  ⟨(C6_avg_ticket_price 25 50 75).1 (by norm_num) (by norm_num)
      (by norm_num) (by norm_num),
   (C6_avg_ticket_price 25 50 150).2 (by norm_num)⟩

/-- Counterexample to C8: with `events_per_month = 0` the
`calculate_total_fixed_costs` operation returns the value 0, and with
`venue_capacity = 0` the `calculate_projected_revenue` operation returns
the value 0 — neither raises `InvalidInput`; the engine only rejects
strictly negative capacity and event counts. -/
theorem C8_counterexample :
    calculate_total_fixed_costs 5000 0 = .ok 0 ∧
    calculate_projected_revenue 10 0 50 1 = .ok 0 := by
  constructor <;>
    norm_num [calculate_total_fixed_costs, calculate_projected_revenue]

/-- C8 as amended: the engine operations consuming `venue_capacity` and
`events_per_month` raise `InvalidInput` exactly for strictly negative
values; zero is accepted and yields a computed result (zero costs or zero
revenue), it is not rejected. -/
theorem C8_amended_negative_inputs (fc ev avg att cap : ℚ) :
    (0 ≤ fc → ev < 0 →
      ∃ e, calculate_total_fixed_costs fc ev = .error e) ∧
    (0 ≤ fc → 0 ≤ ev →
      calculate_total_fixed_costs fc ev = .ok (fc * ev)) ∧
    (0 ≤ att → att ≤ 100 → cap < 0 →
      ∃ e, calculate_projected_revenue avg cap att ev = .error e) ∧
    (0 ≤ att → att ≤ 100 → 0 ≤ cap → ev < 0 →
      ∃ e, calculate_projected_revenue avg cap att ev = .error e) ∧
    (0 ≤ att → att ≤ 100 → 0 ≤ cap → 0 ≤ ev →
      calculate_projected_revenue avg cap att ev =
        .ok (avg * cap * (att / 100) * ev)) := by
  refine ⟨fun hfc hev => ?_, fun hfc hev => ?_,
    fun h0 h100 hcap => ?_, fun h0 h100 hcap hev => ?_,
    fun h0 h100 hcap hev => ?_⟩
  · exact ⟨"Events per month cannot be negative",
      by simp [calculate_total_fixed_costs, not_lt.mpr hfc, hev]⟩
  · simp [calculate_total_fixed_costs, not_lt.mpr hfc, not_lt.mpr hev]
  · exact ⟨"Venue capacity cannot be negative",
      by simp [calculate_projected_revenue, h0, h100, hcap]⟩
  · exact ⟨"Events per month cannot be negative", by
      simp [calculate_projected_revenue, h0, h100, not_lt.mpr hcap, hev]⟩
  · simp [calculate_projected_revenue, h0, h100, not_lt.mpr hcap,
      not_lt.mpr hev]

/-- Witness for the amended C8: a negative event count is rejected, a
zero event count and a zero capacity are accepted with result 0, and a
negative capacity is rejected. -/
theorem C8_amended_negative_inputs_witness :
    (∃ e, calculate_total_fixed_costs 5000 (-1) = .error e) ∧
    calculate_total_fixed_costs 5000 0 = .ok (5000 * 0) ∧
    (∃ e, calculate_projected_revenue 10 (-1) 50 1 = .error e) ∧
    calculate_projected_revenue 10 0 50 1 =
      .ok (10 * 0 * (50 / 100) * 1) :=
  ⟨(C8_amended_negative_inputs 5000 (-1) 10 50 0).1 (by norm_num)
      (by norm_num),
   (C8_amended_negative_inputs 5000 0 10 50 0).2.1 (by norm_num)
      (by norm_num),
   (C8_amended_negative_inputs 5000 1 10 50 (-1)).2.2.1 (by norm_num)
      (by norm_num) (by norm_num),
   (C8_amended_negative_inputs 5000 1 10 50 0).2.2.2.2 (by norm_num)
      (by norm_num) (by norm_num) (by norm_num)⟩

/-- Counterexample to C4: at `attendance_percentage = 0` the projected
revenue is 0, the costs 5000 + 1000·1 = 6000 are nonzero, yet
`calculate_breakeven_roas` on the zero revenue returns the finite value
0/6000 = 0, not the positive-infinity sentinel: the code divides revenue
by costs, so zero revenue with positive costs gives 0, not infinity. -/
theorem C4_counterexample :
    calculate_projected_revenue (125 / 4) 200 0 1 = .ok 0 ∧
    (5000 : ℚ) + 1000 * 1 ≠ 0 ∧
    calculate_breakeven_roas 5000 1000 1 0 ≠ .posInf := by
  refine ⟨?_, by norm_num, ?_⟩
  · norm_num [calculate_projected_revenue]
  · have h : calculate_breakeven_roas 5000 1000 1 0 = .finite 0 := by
      norm_num [calculate_breakeven_roas]
    rw [h]
    simp

/-- C4 as amended: for every valid input with `attendance_percentage = 0`
the projected revenue is 0, and `calculate_breakeven_roas` evaluated on
that zero revenue returns the finite value 0 (not the infinity sentinel)
whenever the costs `totalFixedCosts + eventCost*eventsPerMonth` are
positive; the sentinel occurs only when those costs are not positive. -/
theorem C4_amended_zero_attendance (avg cap epm tfc ec : ℚ)
    (hcap : 0 ≤ cap) (hepm : 0 ≤ epm) (hpos : 0 < tfc + ec * epm) :
    calculate_projected_revenue avg cap 0 epm = .ok 0 ∧
    calculate_breakeven_roas tfc ec epm 0 = .finite 0 := by
  constructor
  · simp [calculate_projected_revenue, not_lt.mpr hcap, not_lt.mpr hepm]
  · simp [calculate_breakeven_roas, hpos]

/-- Witness for the amended C4 at the spec's scenario values (average
price 31.25, capacity 200, one event, costs 5000 + 1000·1). -/
theorem C4_amended_zero_attendance_witness :
    calculate_projected_revenue (125 / 4) 200 0 1 = .ok 0 ∧
    calculate_breakeven_roas 5000 1000 1 0 = .finite 0 :=
  C4_amended_zero_attendance (125 / 4) 200 1 5000 1000 (by norm_num)
    (by norm_num) (by norm_num)

/-- C10: `save_scenario` returns `False` and leaves the scenario mapping
completely unchanged when the name is already present; otherwise it
returns `True` and the mapping afterwards is the old mapping with exactly
one new entry appended under that name — the supplied values with the
timestamp added — every previously saved scenario unchanged. -/
theorem C10_save_scenario (s : List (String × SavedScenario)) (n : String)
    (v : List (String × ℚ)) (t : String) :
    (s.any (fun p => p.1 = n) = true → save_scenario s n v t = (false, s)) ∧
    (s.any (fun p => p.1 = n) = false →
      save_scenario s n v t = (true, s ++ [(n, ⟨v, t⟩)])) := by
  unfold save_scenario
  constructor
  · intro h
    simp [h]
  · intro h
    simp [h]

/-- Witness for C10: saving under an existing name fails and keeps the
store intact; saving under a fresh name succeeds and appends the single
new entry. -/
theorem C10_save_scenario_witness :
    save_scenario [("a", ⟨[], "t0"⟩)] "a" [("fixed_costs", 5000)] "t1" =
      (false, [("a", ⟨[], "t0"⟩)]) ∧
    save_scenario [("a", ⟨[], "t0"⟩)] "b" [("fixed_costs", 5000)] "t1" =
      (true, [("a", ⟨[], "t0"⟩), ("b", ⟨[("fixed_costs", 5000)], "t1"⟩)]) :=
  ⟨(C10_save_scenario [("a", ⟨[], "t0"⟩)] "a" [("fixed_costs", 5000)]
      "t1").1 (by decide),
   (C10_save_scenario [("a", ⟨[], "t0"⟩)] "b" [("fixed_costs", 5000)]
      "t1").2 (by decide)⟩

/-- The per-level metrics of the thresholds table are exactly the
composition of the three engine formulas at that level. -/
theorem calculate_threshold_metrics_eq (l avg cap epm tfc ec : ℚ) :
    calculate_threshold_metrics l avg cap epm tfc ec =
      (calculate_projected_revenue avg cap l epm).map (fun rev =>
        (calculate_breakeven_roas tfc ec epm rev,
         calculate_breakeven_cpp tfc ec epm cap l)) := by
  unfold calculate_threshold_metrics
  cases calculate_projected_revenue avg cap l epm <;> rfl

/-- C7: the thresholds table has exactly six rows, one per level of
{40,50,60,70,80,90} in ascending attendance order, and each row's
break-even ROAS and CPP are obtained by recomputing the projected revenue
and both break-even formulas with that level substituted for the
attendance percentage, all other inputs held fixed. -/
theorem C7_threshold_table (avg cap epm tfc ec : ℚ) :
    threshold_data avg cap epm tfc ec =
      attendance_levels.map (fun level =>
        (level,
          (calculate_projected_revenue avg cap level epm).map (fun rev =>
            (calculate_breakeven_roas tfc ec epm rev,
             calculate_breakeven_cpp tfc ec epm cap level)))) ∧
    (threshold_data avg cap epm tfc ec).map Prod.fst =
      [40, 50, 60, 70, 80, 90] ∧
    (threshold_data avg cap epm tfc ec).length = 6 := by
  refine ⟨?_, ?_, ?_⟩
  · simp [threshold_data, calculate_threshold_metrics_eq]
  · simp [threshold_data, attendance_levels]
  · simp [threshold_data, attendance_levels]

/-- C9: for non-negative prices and a sales mix in [0,100], the value
returned by `calculate_avg_ticket_price` is a convex combination of the
two prices: it lies between `min pricePre pricePost` and
`max pricePre pricePost` inclusive. -/
theorem C9_avg_price_convex (pre post mix : ℚ) (hpre : 0 ≤ pre)
    (hpost : 0 ≤ post) (h0 : 0 ≤ mix) (h100 : mix ≤ 100) (v : ℚ)
    (hv : calculate_avg_ticket_price pre post mix = .ok v) :
    min pre post ≤ v ∧ v ≤ max pre post := by
  unfold calculate_avg_ticket_price at hv
  rw [if_neg (not_not_intro ⟨h0, h100⟩),
    if_neg (by push_neg; exact ⟨hpre, hpost⟩)] at hv
  simp only [Except.ok.injEq] at hv
  subst hv
  rcases le_total pre post with h | h
  · rw [min_eq_left h, max_eq_right h]
    constructor
    · nlinarith [mul_nonneg (sub_nonneg.mpr h)
        (show (0 : ℚ) ≤ 100 - mix by linarith)]
    · nlinarith [mul_nonneg (sub_nonneg.mpr h) h0]
  · rw [min_eq_right h, max_eq_left h]
    constructor
    · nlinarith [mul_nonneg (sub_nonneg.mpr h) h0]
    · nlinarith [mul_nonneg (sub_nonneg.mpr h)
        (show (0 : ℚ) ≤ 100 - mix by linarith)]

/-- Witness for C9 at the spec's scenario: the average 31.25 of prices 25
and 50 under mix 75 lies between 25 and 50. -/
theorem C9_avg_price_convex_witness :
    min (25 : ℚ) 50 ≤ 125 / 4 ∧ (125 / 4 : ℚ) ≤ max 25 50 :=
  C9_avg_price_convex 25 50 75 (by norm_num) (by norm_num) (by norm_num)
    (by norm_num) (125 / 4) (by norm_num [calculate_avg_ticket_price])

/-- Counterexample to C3: with fixed costs 100, event cost 0, one event
per month, capacity 100 and average price 10, raising the attendance from
40% (revenue 400, break-even ROAS 4) to 50% (revenue 500, break-even ROAS
5) strictly increases the break-even ROAS, because the code divides the
revenue by the costs; the metric is not non-increasing in attendance. -/
theorem C3_counterexample :
    calculate_projected_revenue 10 100 40 1 = .ok 400 ∧
    calculate_projected_revenue 10 100 50 1 = .ok 500 ∧
    calculate_breakeven_roas 100 0 1 400 = .finite 4 ∧
    calculate_breakeven_roas 100 0 1 500 = .finite 5 ∧
    EngineVal.leb (.finite 5) (.finite 4) = false := by
  refine ⟨?_, ?_, ?_, ?_, ?_⟩ <;>
    norm_num [calculate_projected_revenue, calculate_breakeven_roas,
      EngineVal.leb]

/-- Unfolded form of `calculate_breakeven_roas`. -/
theorem calculate_breakeven_roas_eq (tfc ec epm rev : ℚ) :
    calculate_breakeven_roas tfc ec epm rev =
      if tfc + ec * epm > 0 then .finite (rev / (tfc + ec * epm))
      else .posInf := rfl

/-- Unfolded form of `calculate_breakeven_cpp`. -/
theorem calculate_breakeven_cpp_eq (tfc ec epm cap att : ℚ) :
    calculate_breakeven_cpp tfc ec epm cap att =
      if cap * (att / 100) * epm > 0 then
        .finite ((tfc + ec * epm) / (cap * (att / 100) * epm))
      else .posInf := rfl

/-- C3 as amended: for fixed non-negative costs, prices, capacity and
events per month, `calculate_breakeven_cpp` is monotonically
non-increasing in the attendance percentage on [0,100] (in the order with
the infinity sentinel on top), while `calculate_breakeven_roas` — which
divides the recomputed revenue by the fixed costs — is monotonically
non-decreasing in the attendance percentage. -/
theorem C3_amended_monotone (tfc ec epm cap avg a1 a2 rev1 rev2 : ℚ)
    (htfc : 0 ≤ tfc) (hec : 0 ≤ ec) (hepm : 0 ≤ epm) (hcap : 0 ≤ cap)
    (havg : 0 ≤ avg) (h1 : 0 ≤ a1) (h12 : a1 ≤ a2) (h2 : a2 ≤ 100)
    (hr1 : calculate_projected_revenue avg cap a1 epm = .ok rev1)
    (hr2 : calculate_projected_revenue avg cap a2 epm = .ok rev2) :
    EngineVal.leb (calculate_breakeven_cpp tfc ec epm cap a2)
      (calculate_breakeven_cpp tfc ec epm cap a1) = true ∧
    EngineVal.leb (calculate_breakeven_roas tfc ec epm rev1)
      (calculate_breakeven_roas tfc ec epm rev2) = true := by
  unfold calculate_projected_revenue at hr1 hr2
  rw [if_neg (not_not_intro ⟨h1, h12.trans h2⟩), if_neg (not_lt.mpr hcap),
    if_neg (not_lt.mpr hepm)] at hr1
  rw [if_neg (not_not_intro ⟨h1.trans h12, h2⟩), if_neg (not_lt.mpr hcap),
    if_neg (not_lt.mpr hepm)] at hr2
  simp only [Except.ok.injEq] at hr1 hr2
  subst hr1
  subst hr2
  have hb : 0 ≤ tfc + ec * epm := add_nonneg htfc (mul_nonneg hec hepm)
  have ht : cap * (a1 / 100) * epm ≤ cap * (a2 / 100) * epm :=
    mul_le_mul_of_nonneg_right
      (mul_le_mul_of_nonneg_left (by linarith) hcap) hepm
  have hrev : avg * cap * (a1 / 100) * epm ≤
      avg * cap * (a2 / 100) * epm :=
    mul_le_mul_of_nonneg_right
      (mul_le_mul_of_nonneg_left (by linarith) (mul_nonneg havg hcap)) hepm
  constructor
  · rw [calculate_breakeven_cpp_eq, calculate_breakeven_cpp_eq]
    split_ifs with hp2 hp1 hp1
    · simp only [EngineVal.leb, decide_eq_true_eq]
      rw [div_le_div_iff₀ hp2 hp1]
      exact mul_le_mul_of_nonneg_left ht hb
    · rfl
    · exact absurd (lt_of_lt_of_le hp1 ht) hp2
    · rfl
  · rw [calculate_breakeven_roas_eq, calculate_breakeven_roas_eq]
    split_ifs with hp
    · simp only [EngineVal.leb, decide_eq_true_eq]
      rw [div_le_div_iff₀ hp hp]
      exact mul_le_mul_of_nonneg_right hrev hb
    · rfl

/-- Witness for the amended C3: at costs 100, average price 10, capacity
100 and one event per month, moving the attendance from 40% to 50% does
not increase the break-even CPP and does not decrease the break-even
ROAS. -/
theorem C3_amended_monotone_witness :
    EngineVal.leb (calculate_breakeven_cpp 100 0 1 100 50)
      (calculate_breakeven_cpp 100 0 1 100 40) = true ∧
    EngineVal.leb (calculate_breakeven_roas 100 0 1 400)
      (calculate_breakeven_roas 100 0 1 500) = true :=
  C3_amended_monotone 100 0 1 100 10 40 50 400 500 (by norm_num)
    (by norm_num) (by norm_num) (by norm_num) (by norm_num) (by norm_num)
    (by norm_num) (by norm_num)
    (by norm_num [calculate_projected_revenue])
    (by norm_num [calculate_projected_revenue])
